import Mathlib

/-!
Shallow embedding of `src/packages/conversational-ai/helper/rtc.ts`
(class `RTCHelper`, an Agora RTC client wrapper with a singleton pattern).

The class is modelled as a state record `RTCState`; each method becomes a
pure function from the state (plus an oracle describing the outcome of the
awaited SDK call, where the method awaits one) to the result, the new state
and the list of events emitted during the call.  The SDK client object is
Option-valued, as in the source (`client: IAgoraRTCClient | null`), and the
local tracks likewise.

The `ConnectionState` enum and the `EventHelper` event bus live in files of
the repository (`../type`, `../utils/event`) that are not part of the given
sources; they are modelled from the spec where noted.
-/

set_option autoImplicit false

/-- Modelled from the spec: the local connection-state enum from `../type`
(not among the given sources); the spec lists exactly the five states
disconnected, connecting, connected, reconnecting, failed. -/
inductive ConnectionState where
  | disconnected
  | connecting
  | connected
  | reconnecting
  | failed
deriving DecidableEq, Repr

/-- Media type of a published track, as in the SDK callbacks. -/
inductive MediaType where
  | audio
  | video
deriving DecidableEq, Repr

/-- Errors raised by `RTCHelper` methods: the two precondition failures with
their messages in the source, and an opaque error propagated from an awaited
SDK call (carried as a numeric code, since the code only re-throws it). -/
inductive RTCError where
  /-- "RTC client not initialized. Call init() first." (join) -/
  | notInitialized
  /-- "Client or audio track not ready" (publish) -/
  | notReady
  /-- an error rejected by an underlying SDK call, re-thrown as-is -/
  | sdk (code : Nat)
deriving DecidableEq, Repr

/-- One entry of a volume-indicator batch: `{ uid, level }`. -/
structure VolumeIndicator where
  uid : Nat
  level : Nat
deriving DecidableEq, Repr

/-- Modelled from the spec: the event vocabulary re-emitted by the helper
(`RTCHelperEvents` from `../type` is not among the given sources; the spec
lists user-published, user-unpublished, user-joined, user-left,
connection-state-changed, network-quality, stream-message, volume-indicator,
audio-position, error).  `EventHelper.emit` is modelled by appending the
event to the list of events emitted by the call. -/
inductive RTCEvent where
  | connectionStateChanged (s : ConnectionState)
  | errorEvent (e : RTCError)
  | userPublished (uid : Nat) (media : MediaType)
  | userUnpublished (uid : Nat) (media : MediaType)
  | userJoined (uid : Nat)
  | userLeft (uid : Nat)
  | volumeIndicator (vols : List VolumeIndicator)
  | networkQuality (up down : Nat)
  | streamMessage (uid : Nat)
  | audioPTS (pts : Nat)
deriving DecidableEq, Repr

/-- A local microphone audio track (`IMicrophoneAudioTrack`): the facade
reads its `enabled` flag and its current volume level. -/
structure MicrophoneAudioTrack where
  enabled : Bool
  level : Nat
deriving DecidableEq, Repr

/-- A local camera video track (`ICameraVideoTrack`). -/
structure CameraVideoTrack where
  enabled : Bool
deriving DecidableEq, Repr

/-- A remote user as seen through `client.remoteUsers`: a uid and an
optional remote audio track, of which only the volume level is read. -/
structure RemoteUser where
  uid : Nat
  audioLevel : Option Nat
deriving DecidableEq, Repr

/-- The mutable instance fields of `RTCHelper` (rtc.ts lines 17-28).
`volumeIntervalRef` holds the id of the live `setInterval` timer, if any;
`nextTimerId` numbers the timers ever created, so that creating a second
timer is observable.  `ptsLoops` counts the live playback-position
(`requestAnimationFrame`) emission loops started by
`startAudioPTSEmission`. -/
structure RTCState where
  client : Option Unit := none
  localAudioTrack : Option MicrophoneAudioTrack := none
  localVideoTrack : Option CameraVideoTrack := none
  appId : String := ""
  channel : String := ""
  token : Option String := none
  uid : Nat := 0
  connectionState : ConnectionState := ConnectionState.disconnected
  volumeIntervalRef : Option Nat := none
  nextTimerId : Nat := 0
  ptsLoops : Nat := 0
  shouldSubscribeAudio : Option (Nat → Bool) := none
  shouldSubscribeVideo : Option (Nat → Bool) := none

/-- The state of a fresh `RTCHelper` instance (the field initializers of the
class). -/
def initialState : RTCState := {}

/-- `setConnectionState` (rtc.ts 337-342): assign and emit
`CONNECTION_STATE_CHANGED` only when the new state differs from the stored
one. -/
def setConnectionState (s : RTCState) (st : ConnectionState) :
    RTCState × List RTCEvent :=
  if s.connectionState ≠ st then
    ({ s with connectionState := st }, [RTCEvent.connectionStateChanged st])
  else
    (s, [])

/-- `getConnectionState` (rtc.ts 344-346). -/
def getConnectionState (s : RTCState) : ConnectionState :=
  s.connectionState

/-- `init` (rtc.ts 41-62): store the config fields and construct the
underlying client (`AgoraRTC.createClient` is synchronous and always yields
a client); `setupEventListeners` only attaches callbacks and changes no
field. -/
def init (s : RTCState) (appId channel : String) (token : Option String)
    (uid : Nat) (sa sv : Option (Nat → Bool)) : RTCState :=
  { s with
    appId := appId
    channel := channel
    token := token
    uid := uid
    shouldSubscribeAudio := sa
    shouldSubscribeVideo := sv
    client := some () }

/-- `createAudioTrack` (rtc.ts 64-78): on success of the awaited SDK factory
the new track (initially enabled) is stored; on rejection nothing is
assigned.  `ok = none` means success with the given volume level, `ok =
some code` a rejection with that error. -/
def createAudioTrack (s : RTCState) (sdk : Except Nat Nat) :
    Except RTCError MicrophoneAudioTrack × RTCState :=
  match sdk with
  | Except.ok level =>
      let t : MicrophoneAudioTrack := { enabled := true, level := level }
      (Except.ok t, { s with localAudioTrack := some t })
  | Except.error code => (Except.error (RTCError.sdk code), s)

/-- `createVideoTrack` (rtc.ts 80-93). -/
def createVideoTrack (s : RTCState) (sdk : Except Nat Unit) :
    Except RTCError CameraVideoTrack × RTCState :=
  match sdk with
  | Except.ok _ =>
      let t : CameraVideoTrack := { enabled := true }
      (Except.ok t, { s with localVideoTrack := some t })
  | Except.error code => (Except.error (RTCError.sdk code), s)

/-- `join` (rtc.ts 95-110): throw if no client; set state to connecting;
await the SDK join (`sdkJoin = none` resolves, `some code` rejects); on
success set connected, on failure set failed, emit an error event with the
caught error and re-throw it. -/
def join (s : RTCState) (sdkJoin : Option Nat) :
    Except RTCError Unit × RTCState × List RTCEvent :=
  match s.client with
  | none => (Except.error RTCError.notInitialized, s, [])
  | some _ =>
      let p1 := setConnectionState s ConnectionState.connecting
      match sdkJoin with
      | none =>
          let p2 := setConnectionState p1.1 ConnectionState.connected
          (Except.ok (), p2.1, p1.2 ++ p2.2)
      | some code =>
          let p2 := setConnectionState p1.1 ConnectionState.failed
          (Except.error (RTCError.sdk code), p2.1,
            p1.2 ++ p2.2 ++ [RTCEvent.errorEvent (RTCError.sdk code)])

/-- `startVolumeMonitoring` (rtc.ts 292-316): return immediately when a
timer already exists; otherwise create the interval timer (its emissions are
modelled by `timerFire` below). -/
def startVolumeMonitoring (s : RTCState) : RTCState :=
  match s.volumeIntervalRef with
  | some _ => s
  | none =>
      { s with
        volumeIntervalRef := some s.nextTimerId
        nextTimerId := s.nextTimerId + 1 }

/-- `stopVolumeMonitoring` (rtc.ts 318-323): clear the interval timer if one
exists. -/
def stopVolumeMonitoring (s : RTCState) : RTCState :=
  match s.volumeIntervalRef with
  | some _ => { s with volumeIntervalRef := none }
  | none => s

/-- The body of the `setInterval` callback of `startVolumeMonitoring`
(rtc.ts 295-315): bail out without a client; sample the local track (if
any) and every remote user with an audio track; emit one
`VOLUME_INDICATOR` batch iff at least one sample was collected. -/
def volumeTickBody (s : RTCState) (remote : List RemoteUser) :
    List RTCEvent :=
  match s.client with
  | none => []
  | some _ =>
      let localVols : List VolumeIndicator :=
        match s.localAudioTrack with
        | some t => [{ uid := s.uid, level := t.level }]
        | none => []
      let remoteVols : List VolumeIndicator :=
        remote.filterMap fun u =>
          u.audioLevel.map fun l => { uid := u.uid, level := l }
      let volumes := localVols ++ remoteVols
      if volumes.length > 0 then [RTCEvent.volumeIndicator volumes] else []

/-- One firing opportunity of the volume-sampling timer: after
`clearInterval` (ref `none`) the callback no longer runs, so nothing is
emitted. -/
def timerFire (s : RTCState) (remote : List RemoteUser) : List RTCEvent :=
  match s.volumeIntervalRef with
  | none => []
  | some _ => volumeTickBody s remote

/-- `publish` (rtc.ts 112-119): throw unless client and audio track exist;
await the SDK publish; on success start volume monitoring (a rejection
re-throws before the timer is touched). -/
def publish (s : RTCState) (sdkOk : Bool) :
    Except RTCError Unit × RTCState :=
  match s.client, s.localAudioTrack with
  | some _, some _ =>
      if sdkOk then (Except.ok (), startVolumeMonitoring s)
      else (Except.error (RTCError.sdk 0), s)
  | _, _ => (Except.error RTCError.notReady, s)

/-- `unpublish` (rtc.ts 121-126): return early (resolving) unless client and
audio track exist; await the SDK unpublish; only on success stop volume
monitoring (a rejection re-throws before the timer is stopped). -/
def unpublish (s : RTCState) (sdkOk : Bool) :
    Except RTCError Unit × RTCState :=
  match s.client, s.localAudioTrack with
  | some _, some _ =>
      if sdkOk then (Except.ok (), stopVolumeMonitoring s)
      else (Except.error (RTCError.sdk 0), s)
  | _, _ => (Except.ok (), s)

/-- `leave` (rtc.ts 128-150): return early without a client; stop volume
monitoring; stop, close and clear both local tracks; await the SDK leave
(`sdkLeave = none` resolves, `some code` rejects); only on success set the
connection state to disconnected — a rejection re-throws first. -/
def leave (s : RTCState) (sdkLeave : Option Nat) :
    Except RTCError Unit × RTCState × List RTCEvent :=
  match s.client with
  | none => (Except.ok (), s, [])
  | some _ =>
      let s1 := stopVolumeMonitoring s
      let s2 := { s1 with
        localAudioTrack := none
        localVideoTrack := none }
      match sdkLeave with
      | none =>
          let p := setConnectionState s2 ConnectionState.disconnected
          (Except.ok (), p.1, p.2)
      | some code => (Except.error (RTCError.sdk code), s2, [])

/-- `setMuted` (rtc.ts 152-155): return early without an audio track;
otherwise `setEnabled(!muted)` on the track. -/
def setMuted (s : RTCState) (muted : Bool) : RTCState :=
  match s.localAudioTrack with
  | none => s
  | some t => { s with localAudioTrack := some { t with enabled := !muted } }

/-- `getMuted` (rtc.ts 157-159): `localAudioTrack?.enabled === false`; with
no track the optional chain yields undefined, and `undefined === false` is
false. -/
def getMuted (s : RTCState) : Bool :=
  match s.localAudioTrack with
  | none => false
  | some t => t.enabled == false

/-- `setVideoEnabled` (rtc.ts 161-168). -/
def setVideoEnabled (s : RTCState) (enabled : Bool) : RTCState :=
  match s.localVideoTrack with
  | none => s
  | some t =>
      { s with localVideoTrack := some { t with enabled := enabled } }

/-- `getVideoEnabled` (rtc.ts 170-172). -/
def getVideoEnabled (s : RTCState) : Bool :=
  match s.localVideoTrack with
  | none => false
  | some t => t.enabled == true

/-- One `requestAnimationFrame` firing of the `emitPTS` closure of
`startAudioPTSEmission` (rtc.ts 326-333): the captured track object is
non-null, so an `AUDIO_PTS` event with `stats.receiveFrames || 0` is always
emitted, and `requestAnimationFrame(emitPTS)` unconditionally re-arms the
loop (the returned flag is whether the loop is still armed). -/
def emitPTSStep (receiveFrames : Option Nat) : List RTCEvent × Bool :=
  ([RTCEvent.audioPTS (receiveFrames.getD 0)], true)

/-- `startAudioPTSEmission` (rtc.ts 325-335): start one more frame loop and
run its body once synchronously. -/
def startAudioPTSEmission (s : RTCState) (receiveFrames : Option Nat) :
    RTCState × List RTCEvent :=
  ({ s with ptsLoops := s.ptsLoops + 1 }, (emitPTSStep receiveFrames).1)

/-- The `user-published` handler (rtc.ts 187-227): evaluate the optional
subscription predicate for the media type (default true); when it denies,
return with no subscribe call and no event; otherwise subscribe and, for
audio, play the track, emit `USER_PUBLISHED` and start the playback-position
loop (whose body runs once, emitting the track statistics `receiveFrames`),
or, for video, emit `USER_PUBLISHED`.  The middle component lists the
`client.subscribe` calls made. -/
def onUserPublished (s : RTCState) (uid : Nat) (media : MediaType)
    (receiveFrames : Option Nat) :
    RTCState × List (Nat × MediaType) × List RTCEvent :=
  let shouldSubscribe : Bool :=
    match media with
    | MediaType.audio =>
        match s.shouldSubscribeAudio with
        | some p => p uid
        | none => true
    | MediaType.video =>
        match s.shouldSubscribeVideo with
        | some p => p uid
        | none => true
  if !shouldSubscribe then (s, [], [])
  else
    match media with
    | MediaType.audio =>
        let p := startAudioPTSEmission s receiveFrames
        (p.1, [(uid, MediaType.audio)],
          RTCEvent.userPublished uid MediaType.audio :: p.2)
    | MediaType.video =>
        (s, [(uid, MediaType.video)],
          [RTCEvent.userPublished uid MediaType.video])

/-- The fixed `stateMap` lookup table of the `connection-state-change`
handler (rtc.ts 258-264), as an association list. -/
def stateMap : List (String × ConnectionState) :=
  [("DISCONNECTED", ConnectionState.disconnected),
   ("CONNECTING", ConnectionState.connecting),
   ("CONNECTED", ConnectionState.connected),
   ("RECONNECTING", ConnectionState.reconnecting),
   ("DISCONNECTING", ConnectionState.disconnected)]

/-- The `connection-state-change` handler (rtc.ts 257-268):
`stateMap[curState] || CS.DISCONNECTED` (a missing key yields undefined,
hence the default; every table value is a member of the modelled enum, so
never falsy), then `setConnectionState`. -/
def onConnectionStateChange (s : RTCState) (curState : String) :
    RTCState × List RTCEvent :=
  let mappedState := (stateMap.lookup curState).getD ConnectionState.disconnected
  setConnectionState s mappedState

/-- The `user-unpublished` handler (rtc.ts 229-239). -/
def onUserUnpublished (s : RTCState) (uid : Nat) (media : MediaType) :
    RTCState × List RTCEvent :=
  (s, [RTCEvent.userUnpublished uid media])

/-- The `network-quality` handler (rtc.ts 270-276). -/
def onNetworkQuality (s : RTCState) (up down : Nat) :
    RTCState × List RTCEvent :=
  (s, [RTCEvent.networkQuality up down])

/-- `destroy` (rtc.ts 348-352), instance-state part: run `leave` (its
synchronous prefix runs before `destroy` continues; the state shown is after
the leave settles with the given SDK outcome) and remove all listeners
(which changes none of the modelled fields). -/
def destroyState (s : RTCState) (sdkLeave : Option Nat) : RTCState :=
  (leave s sdkLeave).2.1

/-- The static-member state of the class: `RTCHelper.instance` plus a
freshness counter numbering the instances ever constructed, so that distinct
constructions are observable. -/
structure RTCGlobal where
  inst : Option Nat
  nextId : Nat
deriving DecidableEq, Repr

/-- The static state before any `getInstance` call (`instance = null`). -/
def initialGlobal : RTCGlobal := { inst := none, nextId := 0 }

/-- `getInstance` (rtc.ts 34-39): construct a new instance only when none is
stored; return the stored one. -/
def getInstance (g : RTCGlobal) : Nat × RTCGlobal :=
  match g.inst with
  | some i => (i, g)
  | none => (g.nextId, { inst := some g.nextId, nextId := g.nextId + 1 })

/-- `destroy` (rtc.ts 348-352), static part: `RTCHelper.instance = null`. -/
def destroyGlobal (g : RTCGlobal) : RTCGlobal :=
  { g with inst := none }

/-- Well-formedness of the static state: a stored instance was constructed
by the counter, so its id is below `nextId`. -/
def WFGlobal (g : RTCGlobal) : Prop :=
  ∀ i, g.inst = some i → i < g.nextId

/-- The operations of the facade (public methods plus attached SDK event
handlers), each carrying the oracle values its awaited SDK calls resolve or
reject with.  Applying an `Op` yields the post-state of the call, which
defines the states a session can actually be in. -/
inductive Op where
  | init (appId channel : String) (token : Option String) (uid : Nat)
      (sa sv : Option (Nat → Bool))
  | createAudioTrack (sdk : Except Nat Nat)
  | createVideoTrack (sdk : Except Nat Unit)
  | join (sdkJoin : Option Nat)
  | publish (sdkOk : Bool)
  | unpublish (sdkOk : Bool)
  | leave (sdkLeave : Option Nat)
  | setMuted (muted : Bool)
  | setVideoEnabled (enabled : Bool)
  | userPublished (uid : Nat) (media : MediaType) (receiveFrames : Option Nat)
  | userUnpublished (uid : Nat) (media : MediaType)
  | connectionStateChange (curState : String)
  | networkQuality (up down : Nat)
  | destroy (sdkLeave : Option Nat)

/-- The state reached by one facade operation. -/
def applyOp (s : RTCState) : Op → RTCState
  | Op.init a c t u sa sv => init s a c t u sa sv
  | Op.createAudioTrack sdk => (createAudioTrack s sdk).2
  | Op.createVideoTrack sdk => (createVideoTrack s sdk).2
  | Op.join sdkJoin => (join s sdkJoin).2.1
  | Op.publish sdkOk => (publish s sdkOk).2
  | Op.unpublish sdkOk => (unpublish s sdkOk).2
  | Op.leave sdkLeave => (leave s sdkLeave).2.1
  | Op.setMuted m => setMuted s m
  | Op.setVideoEnabled b => setVideoEnabled s b
  | Op.userPublished uid m rf => (onUserPublished s uid m rf).1
  | Op.userUnpublished uid m => (onUserUnpublished s uid m).1
  | Op.connectionStateChange str => (onConnectionStateChange s str).1
  | Op.networkQuality up down => (onNetworkQuality s up down).1
  | Op.destroy sdkLeave => destroyState s sdkLeave

/-- A session state attainable from a fresh instance through the facade's
operations. -/
def Reachable (s : RTCState) : Prop :=
  ∃ ops : List Op, s = ops.foldl applyOp initialState

/-- The invariant tying the volume timer to its preconditions: the timer is
only ever started by `publish`, which requires client and audio track, and
the only operation clearing the audio track (`leave`) stops the timer
first. -/
def TimerInv (s : RTCState) : Prop :=
  s.volumeIntervalRef.isSome → s.client.isSome ∧ s.localAudioTrack.isSome

theorem setConnectionState_fields (s : RTCState) (st : ConnectionState) :
    (setConnectionState s st).1.volumeIntervalRef = s.volumeIntervalRef ∧
    (setConnectionState s st).1.client = s.client ∧
    (setConnectionState s st).1.localAudioTrack = s.localAudioTrack ∧
    (setConnectionState s st).1.ptsLoops = s.ptsLoops ∧
    (setConnectionState s st).1.localVideoTrack = s.localVideoTrack := by
  unfold setConnectionState
  split <;> simp

theorem stopVolumeMonitoring_ref (s : RTCState) :
    (stopVolumeMonitoring s).volumeIntervalRef = none := by
  unfold stopVolumeMonitoring
  cases h : s.volumeIntervalRef <;> simp [h]

theorem stopVolumeMonitoring_fields (s : RTCState) :
    (stopVolumeMonitoring s).client = s.client ∧
    (stopVolumeMonitoring s).localAudioTrack = s.localAudioTrack ∧
    (stopVolumeMonitoring s).localVideoTrack = s.localVideoTrack ∧
    (stopVolumeMonitoring s).connectionState = s.connectionState ∧
    (stopVolumeMonitoring s).ptsLoops = s.ptsLoops := by
  unfold stopVolumeMonitoring
  cases s.volumeIntervalRef <;> simp

theorem leave_ref_of_client (s : RTCState) (sdk : Option Nat) (u : Unit)
    (hc : s.client = some u) :
    (leave s sdk).2.1.volumeIntervalRef = none := by
  unfold leave
  rw [hc]
  cases sdk with
  | none =>
      have f := setConnectionState_fields
        { stopVolumeMonitoring s with
          localAudioTrack := none, localVideoTrack := none }
        ConnectionState.disconnected
      simp only
      rw [f.1]
      simpa using stopVolumeMonitoring_ref s
  | some code =>
      simpa using stopVolumeMonitoring_ref s

theorem leave_of_no_client (s : RTCState) (sdk : Option Nat)
    (hc : s.client = none) :
    leave s sdk = (Except.ok (), s, []) := by
  unfold leave
  rw [hc]

theorem onUserPublished_fields (s : RTCState) (uid : Nat) (m : MediaType)
    (rf : Option Nat) :
    (onUserPublished s uid m rf).1.volumeIntervalRef = s.volumeIntervalRef ∧
    (onUserPublished s uid m rf).1.client = s.client ∧
    (onUserPublished s uid m rf).1.localAudioTrack = s.localAudioTrack := by
  cases m with
  | audio =>
      simp only [onUserPublished, startAudioPTSEmission]
      split <;> simp
  | video =>
      simp only [onUserPublished]
      split <;> simp

theorem timerInv_applyOp (s : RTCState) (op : Op) (h : TimerInv s) :
    TimerInv (applyOp s op) := by
  cases op with
  | init a c t u sa sv =>
      intro hv
      have hv' : s.volumeIntervalRef.isSome := by
        simpa [applyOp, init] using hv
      exact ⟨by simp [applyOp, init],
        by simpa [applyOp, init] using (h hv').2⟩
  | createAudioTrack sdk =>
      cases sdk with
      | ok level =>
          intro hv
          have hv' : s.volumeIntervalRef.isSome := by
            simpa [applyOp, createAudioTrack] using hv
          exact ⟨by simpa [applyOp, createAudioTrack] using (h hv').1,
            by simp [applyOp, createAudioTrack]⟩
      | error code => simpa [applyOp, createAudioTrack] using h
  | createVideoTrack sdk =>
      cases sdk with
      | ok u =>
          intro hv
          have hv' : s.volumeIntervalRef.isSome := by
            simpa [applyOp, createVideoTrack] using hv
          exact ⟨by simpa [applyOp, createVideoTrack] using (h hv').1,
            by simpa [applyOp, createVideoTrack] using (h hv').2⟩
      | error code => simpa [applyOp, createVideoTrack] using h
  | join sdkJoin =>
      intro hv
      simp only [applyOp] at hv ⊢
      unfold join at hv ⊢
      cases hc : s.client with
      | none => exact h (by simpa [hc] using hv)
      | some u =>
          have f1 := setConnectionState_fields s ConnectionState.connecting
          cases sdkJoin with
          | none =>
              have f2 := setConnectionState_fields
                (setConnectionState s ConnectionState.connecting).1
                ConnectionState.connected
              simp only [hc] at hv ⊢
              rw [f2.1, f1.1] at hv
              exact ⟨by rw [f2.2.1, f1.2.1]; exact (h hv).1,
                by rw [f2.2.2.1, f1.2.2.1]; exact (h hv).2⟩
          | some code =>
              have f2 := setConnectionState_fields
                (setConnectionState s ConnectionState.connecting).1
                ConnectionState.failed
              simp only [hc] at hv ⊢
              rw [f2.1, f1.1] at hv
              exact ⟨by rw [f2.2.1, f1.2.1]; exact (h hv).1,
                by rw [f2.2.2.1, f1.2.2.1]; exact (h hv).2⟩
  | publish sdkOk =>
      intro hv
      simp only [applyOp] at hv ⊢
      unfold publish at hv ⊢
      cases hc : s.client with
      | none =>
          rw [hc] at hv
          exfalso
          have h1 := (h hv).1
          rw [hc] at h1
          simp at h1
      | some u =>
          cases ht : s.localAudioTrack with
          | none =>
              rw [hc, ht] at hv
              exfalso
              have h2 := (h hv).2
              rw [ht] at h2
              simp at h2
          | some t =>
              cases sdkOk with
              | true =>
                  unfold startVolumeMonitoring
                  cases hr : s.volumeIntervalRef <;> simp [hc, ht]
              | false => simp [hc, ht]
  | unpublish sdkOk =>
      intro hv
      simp only [applyOp] at hv ⊢
      unfold unpublish at hv ⊢
      cases hc : s.client with
      | none =>
          rw [hc] at hv
          exfalso
          have h1 := (h hv).1
          rw [hc] at h1
          simp at h1
      | some u =>
          cases ht : s.localAudioTrack with
          | none =>
              rw [hc, ht] at hv
              exfalso
              have h2 := (h hv).2
              rw [ht] at h2
              simp at h2
          | some t =>
              cases sdkOk with
              | true =>
                  rw [hc, ht] at hv
                  simp [stopVolumeMonitoring_ref] at hv
              | false => simp [hc, ht]
  | leave sdkLeave =>
      intro hv
      simp only [applyOp] at hv ⊢
      cases hc : s.client with
      | none =>
          rw [leave_of_no_client s sdkLeave hc] at hv ⊢
          exact h hv
      | some u =>
          rw [leave_ref_of_client s sdkLeave u hc] at hv
          simp at hv
  | setMuted m =>
      intro hv
      simp only [applyOp] at hv ⊢
      unfold setMuted at hv ⊢
      cases ht : s.localAudioTrack with
      | none =>
          rw [ht] at hv
          exact h hv
      | some t =>
          rw [ht] at hv
          have hv' : s.volumeIntervalRef.isSome := by simpa using hv
          exact ⟨by simpa using (h hv').1, by simp⟩
  | setVideoEnabled b =>
      intro hv
      simp only [applyOp] at hv ⊢
      unfold setVideoEnabled at hv ⊢
      cases ht : s.localVideoTrack with
      | none =>
          rw [ht] at hv
          exact h hv
      | some t =>
          rw [ht] at hv
          have hv' : s.volumeIntervalRef.isSome := by simpa using hv
          exact ⟨by simpa using (h hv').1, by simpa using (h hv').2⟩
  | userPublished uid m rf =>
      intro hv
      have f := onUserPublished_fields s uid m rf
      simp only [applyOp] at hv ⊢
      rw [f.1] at hv
      exact ⟨by rw [f.2.1]; exact (h hv).1, by rw [f.2.2]; exact (h hv).2⟩
  | userUnpublished uid m => simpa [applyOp, onUserUnpublished] using h
  | connectionStateChange str =>
      intro hv
      simp only [applyOp] at hv ⊢
      unfold onConnectionStateChange at hv ⊢
      have f := setConnectionState_fields s
        ((stateMap.lookup str).getD ConnectionState.disconnected)
      simp only at hv ⊢
      rw [f.1] at hv
      exact ⟨by rw [f.2.1]; exact (h hv).1, by rw [f.2.2.1]; exact (h hv).2⟩
  | networkQuality up down => simpa [applyOp, onNetworkQuality] using h
  | destroy sdkLeave =>
      intro hv
      simp only [applyOp] at hv ⊢
      unfold destroyState at hv ⊢
      cases hc : s.client with
      | none =>
          rw [leave_of_no_client s sdkLeave hc] at hv ⊢
          exact h hv
      | some u =>
          rw [leave_ref_of_client s sdkLeave u hc] at hv
          simp at hv


theorem timerInv_foldl (ops : List Op) (s : RTCState) (h : TimerInv s) :
    TimerInv (ops.foldl applyOp s) := by
  induction ops generalizing s with
  | nil => exact h
  | cons op rest ih => exact ih (applyOp s op) (timerInv_applyOp s op h)

theorem timerInv_initial : TimerInv initialState := by
  intro hv
  simp [initialState] at hv

theorem timerInv_reachable (s : RTCState) (h : Reachable s) : TimerInv s := by
  rcases h with ⟨ops, rfl⟩
  exact timerInv_foldl ops initialState timerInv_initial

/-- Claim C4: for every current connection state, setting the connection
state to the same value twice in succession emits the connection-state-
changed notification at most once; the setter suppresses the duplicate
transition, so the second call emits nothing. -/
theorem C4_duplicate_state_suppressed (s : RTCState) (st : ConnectionState) :
    (setConnectionState (setConnectionState s st).1 st).2 = [] ∧
    ((setConnectionState s st).2 ++
        (setConnectionState (setConnectionState s st).1 st).2).length ≤ 1 := by
  unfold setConnectionState
  by_cases h : s.connectionState = st <;> simp [h]

/-- Claim C10: whenever no local audio track exists, `getMuted` returns
false — a session without a microphone track reports itself as not muted —
and `setMuted` on such a session returns without error (the source early-
returns, resolving) and changes nothing. -/
theorem C10_no_track_not_muted (s : RTCState)
    (h : s.localAudioTrack = none) (muted : Bool) :
    getMuted s = false ∧ setMuted s muted = s := by
  unfold getMuted setMuted
  rw [h]
  exact ⟨rfl, rfl⟩

theorem C10_no_track_not_muted_witness :
    getMuted initialState = false ∧ setMuted initialState true = initialState :=
  C10_no_track_not_muted initialState rfl true

/-- Claim C5: every `getInstance` call returns the same instance as every
previous call since the last `destroy`: a second call on the state left by
any call returns the same instance id and leaves the static state unchanged.
After `destroy`, the next `getInstance` constructs and returns a new,
distinct instance. -/
theorem C5_singleton_instance (g : RTCGlobal) (hwf : WFGlobal g) :
    (∀ i g1, getInstance g = (i, g1) → getInstance g1 = (i, g1)) ∧
    (∀ i g1, getInstance g = (i, g1) →
      ∀ j g2, getInstance (destroyGlobal g1) = (j, g2) → j ≠ i) := by
  cases hg : g.inst with
  | some i0 =>
      constructor
      · intro i g1 hgi
        unfold getInstance at hgi ⊢
        rw [hg] at hgi
        obtain ⟨rfl, rfl⟩ := Prod.mk.injEq .. ▸ hgi
        rw [hg]
      · intro i g1 hgi j g2 hgj
        unfold getInstance at hgi
        rw [hg] at hgi
        obtain ⟨rfl, rfl⟩ := Prod.mk.injEq .. ▸ hgi
        unfold getInstance destroyGlobal at hgj
        simp only at hgj
        obtain ⟨rfl, rfl⟩ := Prod.mk.injEq .. ▸ hgj
        exact Nat.ne_of_gt (hwf i0 hg)
  | none =>
      constructor
      · intro i g1 hgi
        unfold getInstance at hgi ⊢
        rw [hg] at hgi
        obtain ⟨rfl, rfl⟩ := Prod.mk.injEq .. ▸ hgi
        rfl
      · intro i g1 hgi j g2 hgj
        unfold getInstance at hgi
        rw [hg] at hgi
        obtain ⟨rfl, rfl⟩ := Prod.mk.injEq .. ▸ hgi
        unfold getInstance destroyGlobal at hgj
        simp only at hgj
        obtain ⟨rfl, rfl⟩ := Prod.mk.injEq .. ▸ hgj
        exact Nat.succ_ne_self g.nextId

theorem C5_singleton_instance_witness :
    getInstance (getInstance initialGlobal).2 =
      ((getInstance initialGlobal).1, (getInstance initialGlobal).2) ∧
    (getInstance (destroyGlobal (getInstance initialGlobal).2)).1 ≠
      (getInstance initialGlobal).1 := by
  have h := C5_singleton_instance initialGlobal
    (by intro i hi; simp [initialGlobal] at hi)
  exact ⟨h.1 0 { inst := some 0, nextId := 1 } rfl,
    h.2 0 { inst := some 0, nextId := 1 } rfl 1 { inst := some 1, nextId := 2 } rfl⟩

/-- Claim C7: every connection-state string delivered by the SDK's
connection-state-change callback is mapped through the fixed lookup table to
the local enum (any string that is a key of the table maps to its table
value), and any string not among the table's keys maps to disconnected. -/
theorem C7_state_string_mapping (s : RTCState) (curState : String) :
    (∀ st : ConnectionState, (curState, st) ∈ stateMap →
      onConnectionStateChange s curState = setConnectionState s st) ∧
    (curState ∉ stateMap.map Prod.fst →
      onConnectionStateChange s curState =
        setConnectionState s ConnectionState.disconnected) := by
  constructor
  · intro st hmem
    unfold onConnectionStateChange
    simp only [stateMap, List.mem_cons, List.not_mem_nil, or_false] at hmem
    rcases hmem with h | h | h | h | h <;>
      · obtain ⟨h1, h2⟩ := Prod.ext_iff.mp h
        subst h1
        subst h2
        rfl
  · intro hnk
    unfold onConnectionStateChange
    simp only [stateMap, List.map, List.mem_cons, List.not_mem_nil, or_false,
      not_or] at hnk
    obtain ⟨h1, h2, h3, h4, h5⟩ := hnk
    have b1 : (curState == "DISCONNECTED") = false := beq_eq_false_iff_ne.mpr h1
    have b2 : (curState == "CONNECTING") = false := beq_eq_false_iff_ne.mpr h2
    have b3 : (curState == "CONNECTED") = false := beq_eq_false_iff_ne.mpr h3
    have b4 : (curState == "RECONNECTING") = false := beq_eq_false_iff_ne.mpr h4
    have b5 : (curState == "DISCONNECTING") = false :=
      beq_eq_false_iff_ne.mpr h5
    simp [stateMap, List.lookup, b1, b2, b3, b4, b5]

theorem C7_state_string_mapping_witness :
    onConnectionStateChange initialState "RECONNECTING" =
      setConnectionState initialState ConnectionState.reconnecting ∧
    onConnectionStateChange initialState "SOMETHING_ELSE" =
      setConnectionState initialState ConnectionState.disconnected := by
  refine ⟨(C7_state_string_mapping initialState "RECONNECTING").1
    ConnectionState.reconnecting (by simp [stateMap]), ?_⟩
  exact (C7_state_string_mapping initialState "SOMETHING_ELSE").2
    (by simp [stateMap])

theorem leave_ptsLoops (s : RTCState) (sdk : Option Nat) :
    (leave s sdk).2.1.ptsLoops = s.ptsLoops := by
  unfold leave
  cases hc : s.client with
  | none => rfl
  | some u =>
      cases sdk with
      | none =>
          have f := setConnectionState_fields
            { stopVolumeMonitoring s with
              localAudioTrack := none, localVideoTrack := none }
            ConnectionState.disconnected
          simp only
          rw [f.2.2.2.1]
          simpa using (stopVolumeMonitoring_fields s).2.2.2.2
      | some code =>
          simpa using (stopVolumeMonitoring_fields s).2.2.2.2

theorem applyOp_ptsLoops_mono (s : RTCState) (op : Op) :
    s.ptsLoops ≤ (applyOp s op).ptsLoops := by
  cases op with
  | init a c t u sa sv => simp [applyOp, init]
  | createAudioTrack sdk =>
      cases sdk <;> simp [applyOp, createAudioTrack]
  | createVideoTrack sdk =>
      cases sdk <;> simp [applyOp, createVideoTrack]
  | join sdkJoin =>
      simp only [applyOp]
      unfold join
      cases hc : s.client with
      | none => simp
      | some u =>
          have f1 := setConnectionState_fields s ConnectionState.connecting
          cases sdkJoin with
          | none =>
              have f2 := setConnectionState_fields
                (setConnectionState s ConnectionState.connecting).1
                ConnectionState.connected
              simp only
              rw [f2.2.2.2.1, f1.2.2.2.1]
          | some code =>
              have f2 := setConnectionState_fields
                (setConnectionState s ConnectionState.connecting).1
                ConnectionState.failed
              simp only
              rw [f2.2.2.2.1, f1.2.2.2.1]
  | publish sdkOk =>
      simp only [applyOp]
      unfold publish startVolumeMonitoring
      cases s.client <;> cases s.localAudioTrack <;> cases sdkOk <;>
        cases s.volumeIntervalRef <;> simp
  | unpublish sdkOk =>
      simp only [applyOp]
      unfold unpublish stopVolumeMonitoring
      cases s.client <;> cases s.localAudioTrack <;> cases sdkOk <;>
        cases s.volumeIntervalRef <;> simp
  | leave sdkLeave => simp [applyOp, leave_ptsLoops]
  | setMuted m =>
      simp only [applyOp]
      unfold setMuted
      cases s.localAudioTrack <;> simp
  | setVideoEnabled b =>
      simp only [applyOp]
      unfold setVideoEnabled
      cases s.localVideoTrack <;> simp
  | userPublished uid m rf =>
      simp only [applyOp]
      cases m with
      | audio =>
          simp only [onUserPublished, startAudioPTSEmission]
          split <;> simp
      | video =>
          simp only [onUserPublished]
          split <;> simp
  | userUnpublished uid m => simp [applyOp, onUserUnpublished]
  | connectionStateChange str =>
      simp only [applyOp]
      unfold onConnectionStateChange
      have f := setConnectionState_fields s
        ((stateMap.lookup str).getD ConnectionState.disconnected)
      simp only
      rw [f.2.2.2.1]
  | networkQuality up down => simp [applyOp, onNetworkQuality]
  | destroy sdkLeave =>
      simp only [applyOp]
      unfold destroyState
      simp [leave_ptsLoops]

/-- Claim C9: once started, the playback-position emission loop re-arms
itself on every rendering frame (`emitPTSStep` always reports the loop as
still armed) and never stops: no operation of the facade — in particular
unpublish, leave, destroy and the track teardown leave performs — ever
lowers the number of live loops, and unpublish, leave, destroy and the
volume-timer teardown leave each loop count exactly unchanged. -/
theorem C9_pts_loop_never_stopped :
    (∀ rf : Option Nat, (emitPTSStep rf).2 = true) ∧
    (∀ (s : RTCState) (op : Op), s.ptsLoops ≤ (applyOp s op).ptsLoops) ∧
    (∀ (s : RTCState) (sdkOk : Bool) (sdkLeave : Option Nat),
      (unpublish s sdkOk).2.ptsLoops = s.ptsLoops ∧
      (leave s sdkLeave).2.1.ptsLoops = s.ptsLoops ∧
      (destroyState s sdkLeave).ptsLoops = s.ptsLoops ∧
      (stopVolumeMonitoring s).ptsLoops = s.ptsLoops) := by
  refine ⟨fun rf => rfl, applyOp_ptsLoops_mono, fun s sdkOk sdkLeave => ?_⟩
  refine ⟨?_, leave_ptsLoops s sdkLeave, ?_, (stopVolumeMonitoring_fields s).2.2.2.2⟩
  · unfold unpublish stopVolumeMonitoring
    cases s.client <;> cases s.localAudioTrack <;> cases sdkOk <;>
      cases s.volumeIntervalRef <;> simp
  · unfold destroyState
    exact leave_ptsLoops s sdkLeave

/-- The state after a given number of consecutive (successful) `publish`
calls. -/
def publishN : Nat → RTCState → RTCState
  | 0, s => s
  | n + 1, s => publishN n (publish s true).2

theorem publishN_fixed (n : Nat) (s : RTCState) (hc : s.client.isSome)
    (ht : s.localAudioTrack.isSome) (hr : s.volumeIntervalRef.isSome) :
    publishN n s = s := by
  induction n with
  | zero => rfl
  | succ n ih =>
      have hp : (publish s true).2 = s := by
        obtain ⟨u, hu⟩ := Option.isSome_iff_exists.mp hc
        obtain ⟨t, htt⟩ := Option.isSome_iff_exists.mp ht
        obtain ⟨r, hrr⟩ := Option.isSome_iff_exists.mp hr
        unfold publish startVolumeMonitoring
        rw [hu, htt, hrr]
        rfl
      unfold publishN
      rw [hp]
      exact ih

/-- Claim C8: starting volume monitoring is idempotent: from a state with
client and local audio track present and no timer yet, any number of
consecutive `publish` calls leaves exactly one live volume-sampling timer
(the one created by the first call) and creates exactly one timer in total;
and `startVolumeMonitoring` on a state that already has a timer changes
nothing, so a second timer is never created while one is running. -/
theorem C8_publish_idempotent_timer (s : RTCState) (n : Nat)
    (hc : s.client.isSome) (ht : s.localAudioTrack.isSome)
    (hr : s.volumeIntervalRef = none) :
    (publishN (n + 1) s).volumeIntervalRef = some s.nextTimerId ∧
    (publishN (n + 1) s).nextTimerId = s.nextTimerId + 1 ∧
    (∀ s' : RTCState, s'.volumeIntervalRef.isSome →
      startVolumeMonitoring s' = s') := by
  obtain ⟨u, hu⟩ := Option.isSome_iff_exists.mp hc
  obtain ⟨t, htt⟩ := Option.isSome_iff_exists.mp ht
  have h1 : (publish s true).2 = startVolumeMonitoring s := by
    unfold publish
    rw [hu, htt]
    rfl
  have h2 : startVolumeMonitoring s =
      { s with
        volumeIntervalRef := some s.nextTimerId
        nextTimerId := s.nextTimerId + 1 } := by
    unfold startVolumeMonitoring
    rw [hr]
  have hfix : publishN n (startVolumeMonitoring s) = startVolumeMonitoring s := by
    refine publishN_fixed n (startVolumeMonitoring s) ?_ ?_ ?_ <;>
      rw [h2] <;> simp [hu, htt]
  have hstep : publishN (n + 1) s = startVolumeMonitoring s := by
    unfold publishN
    rw [h1, hfix]
  refine ⟨by rw [hstep, h2], by rw [hstep, h2], ?_⟩
  intro s' hs'
  obtain ⟨r, hrr⟩ := Option.isSome_iff_exists.mp hs'
  unfold startVolumeMonitoring
  rw [hrr]

theorem C8_publish_idempotent_timer_witness :
    (publishN 3 { client := some (), localAudioTrack := some ⟨true, 0⟩ }).volumeIntervalRef = some 0 ∧
    (publishN 3 { client := some (), localAudioTrack := some ⟨true, 0⟩ }).nextTimerId = 1 := by
  have h := C8_publish_idempotent_timer
    { client := some (), localAudioTrack := some ⟨true, 0⟩ } 2 rfl rfl rfl
  exact ⟨h.1, h.2.1⟩

/-- Claim C3: on an initialized client (client present), when the SDK join
rejects, `join` transitions the connection state to failed, emits an error
event carrying the caught error, and re-raises that same error to the
caller; when the SDK join resolves, `join` resolves, the state passes
through connecting (the connecting transition is notified whenever the
session was not already connecting) and ends connected. -/
theorem C3_join_outcomes (s : RTCState) (u : Unit) (hc : s.client = some u)
    (code : Nat) :
    ((join s (some code)).1 = Except.error (RTCError.sdk code) ∧
      (join s (some code)).2.1.connectionState = ConnectionState.failed ∧
      RTCEvent.errorEvent (RTCError.sdk code) ∈ (join s (some code)).2.2) ∧
    ((join s none).1 = Except.ok () ∧
      (join s none).2.1.connectionState = ConnectionState.connected ∧
      (s.connectionState ≠ ConnectionState.connecting →
        RTCEvent.connectionStateChanged ConnectionState.connecting ∈
          (join s none).2.2)) := by
  unfold join
  rw [hc]
  unfold setConnectionState
  by_cases h1 : s.connectionState = ConnectionState.connecting <;>
    simp [h1]

theorem C3_join_outcomes_witness :
    (join { client := some () } (some 7)).1 = Except.error (RTCError.sdk 7) ∧
    (join { client := some () } (some 7)).2.1.connectionState =
      ConnectionState.failed ∧
    (join { client := some () } none).2.1.connectionState =
      ConnectionState.connected ∧
    RTCEvent.connectionStateChanged ConnectionState.connecting ∈
      (join { client := some () } none).2.2 := by
  have h := C3_join_outcomes { client := some () } () rfl 7
  exact ⟨h.1.1, h.1.2.1, h.2.2.1, h.2.2.2 (by simp [initialState])⟩

/-- Claim C6: for every remote participant and media type for which the
subscription predicate supplied at init returns false, the user-published
handler makes no subscription call and emits no event (and changes no
state); when no predicate is supplied for that media type, the default is to
subscribe (a subscribe call for that participant and media is made). -/
theorem C6_subscription_predicate_gates (s : RTCState) (uid : Nat)
    (rf : Option Nat) :
    (∀ p, s.shouldSubscribeAudio = some p → p uid = false →
      onUserPublished s uid MediaType.audio rf = (s, [], [])) ∧
    (∀ p, s.shouldSubscribeVideo = some p → p uid = false →
      onUserPublished s uid MediaType.video rf = (s, [], [])) ∧
    (s.shouldSubscribeAudio = none →
      (onUserPublished s uid MediaType.audio rf).2.1 =
        [(uid, MediaType.audio)]) ∧
    (s.shouldSubscribeVideo = none →
      (onUserPublished s uid MediaType.video rf).2.1 =
        [(uid, MediaType.video)]) := by
  refine ⟨?_, ?_, ?_, ?_⟩
  · intro p hp hfalse
    unfold onUserPublished
    rw [hp]
    simp [hfalse]
  · intro p hp hfalse
    unfold onUserPublished
    rw [hp]
    simp [hfalse]
  · intro hp
    unfold onUserPublished
    rw [hp]
    simp
  · intro hp
    unfold onUserPublished
    rw [hp]
    simp

theorem C6_subscription_predicate_gates_witness :
    onUserPublished { shouldSubscribeAudio := some (fun _ => false) } 42
        MediaType.audio none =
      ({ shouldSubscribeAudio := some (fun _ => false) }, [], []) ∧
    (onUserPublished initialState 42 MediaType.audio none).2.1 =
      [(42, MediaType.audio)] := by
  refine ⟨(C6_subscription_predicate_gates
    { shouldSubscribeAudio := some (fun _ => false) } 42 none).1
      (fun _ => false) rfl rfl, ?_⟩
  exact (C6_subscription_predicate_gates initialState 42 none).2.2.1 rfl

theorem setConnectionState_state (s : RTCState) (st : ConnectionState) :
    (setConnectionState s st).1.connectionState = st := by
  unfold setConnectionState
  by_cases h : s.connectionState = st <;> simp [h]

theorem leave_some_client_sdk_reject (s : RTCState) (u : Unit)
    (hc : s.client = some u) (code : Nat) :
    leave s (some code) =
      (Except.error (RTCError.sdk code),
        { stopVolumeMonitoring s with
          localAudioTrack := none, localVideoTrack := none }, []) := by
  unfold leave
  rw [hc]

theorem leave_some_client_sdk_resolve (s : RTCState) (u : Unit)
    (hc : s.client = some u) :
    leave s none =
      (Except.ok (),
        setConnectionState
          { stopVolumeMonitoring s with
            localAudioTrack := none, localVideoTrack := none }
          ConnectionState.disconnected) := by
  unfold leave
  rw [hc]

/-- Claim C1 counterexample: from a connected session with a client and both
local tracks, a `leave` whose underlying `client.leave()` rejects clears the
tracks but does NOT reset the connection state to disconnected: the
rejection propagates before `setConnectionState(DISCONNECTED)` runs, so the
state stays connected, refuting the claim that leave resets the state even
when the underlying leave call fails. -/
theorem C1_counterexample :
    (leave { client := some (), localAudioTrack := some ⟨true, 0⟩, localVideoTrack := some ⟨true⟩, connectionState := ConnectionState.connected } (some 3)).1 =
      Except.error (RTCError.sdk 3) ∧
    (leave { client := some (), localAudioTrack := some ⟨true, 0⟩, localVideoTrack := some ⟨true⟩, connectionState := ConnectionState.connected } (some 3)).2.1.localAudioTrack = none ∧
    (leave { client := some (), localAudioTrack := some ⟨true, 0⟩, localVideoTrack := some ⟨true⟩, connectionState := ConnectionState.connected } (some 3)).2.1.connectionState =
      ConnectionState.connected ∧
    (leave { client := some (), localAudioTrack := some ⟨true, 0⟩, localVideoTrack := some ⟨true⟩, connectionState := ConnectionState.connected } (some 3)).2.1.connectionState ≠
      ConnectionState.disconnected := by
  refine ⟨rfl, rfl, rfl, ?_⟩
  intro h
  have h2 : ConnectionState.connected = ConnectionState.disconnected := h
  exact ConnectionState.noConfusion h2

/-- Claim C1 as amended: for every session with a client, `leave` stops the
volume timer and clears both local track references even when the
underlying `client.leave()` rejects; the connection state is reset to
disconnected only when the SDK leave resolves — on rejection the error is
re-raised to the caller and the connection state is left unchanged. -/
theorem C1_amended_leave_cleanup (s : RTCState) (u : Unit)
    (hc : s.client = some u) (sdk : Option Nat) :
    (leave s sdk).2.1.localAudioTrack = none ∧
    (leave s sdk).2.1.localVideoTrack = none ∧
    (leave s sdk).2.1.volumeIntervalRef = none ∧
    (sdk = none → (leave s sdk).1 = Except.ok () ∧
      (leave s sdk).2.1.connectionState = ConnectionState.disconnected) ∧
    (∀ code, sdk = some code →
      (leave s sdk).1 = Except.error (RTCError.sdk code) ∧
      (leave s sdk).2.1.connectionState = s.connectionState) := by
  cases sdk with
  | none =>
      rw [leave_some_client_sdk_resolve s u hc]
      have f := setConnectionState_fields
        { stopVolumeMonitoring s with
          localAudioTrack := none, localVideoTrack := none }
        ConnectionState.disconnected
      refine ⟨by rw [f.2.2.1], by rw [f.2.2.2.2], ?_, ?_, ?_⟩
      · rw [f.1]
        simpa using stopVolumeMonitoring_ref s
      · exact fun _ => ⟨rfl, setConnectionState_state _ _⟩
      · intro code hcode
        exact Option.noConfusion hcode
  | some c0 =>
      rw [leave_some_client_sdk_reject s u hc c0]
      refine ⟨rfl, rfl, ?_, ?_, ?_⟩
      · simpa using stopVolumeMonitoring_ref s
      · intro hcode
        exact Option.noConfusion hcode
      · intro code hcode
        obtain rfl := Option.some.inj hcode
        exact ⟨rfl, by simpa using (stopVolumeMonitoring_fields s).2.2.2.1⟩

theorem C1_amended_leave_cleanup_witness :
    (leave { client := some (), localAudioTrack := some ⟨true, 0⟩, localVideoTrack := some ⟨true⟩, connectionState := ConnectionState.connected } (some 3)).2.1.localAudioTrack = none ∧
    (leave { client := some (), localAudioTrack := some ⟨true, 0⟩, localVideoTrack := some ⟨true⟩, connectionState := ConnectionState.connected } (some 3)).2.1.volumeIntervalRef = none ∧
    (leave { client := some (), localAudioTrack := some ⟨true, 0⟩, localVideoTrack := some ⟨true⟩, connectionState := ConnectionState.connected } (some 3)).2.1.connectionState =
      ConnectionState.connected := by
  have h := C1_amended_leave_cleanup
    { client := some (), localAudioTrack := some ⟨true, 0⟩, localVideoTrack := some ⟨true⟩, connectionState := ConnectionState.connected }
    () rfl (some 3)
  exact ⟨h.1, h.2.2.1, (h.2.2.2.2 3 rfl).2⟩

theorem timerFire_of_none (s : RTCState) (h : s.volumeIntervalRef = none)
    (remote : List RemoteUser) : timerFire s remote = [] := by
  unfold timerFire
  rw [h]

/-- Claim C2: for every state a session can actually be in, after a call to
`unpublish` or `leave` returns (resolves), the volume-sampling timer is
stopped, and a fire opportunity of the (cleared) timer emits no
volume-indicator event afterward.  For `unpublish` this needs reachability:
the timer only runs when client and audio track exist, so the early-return
path never leaves a live timer behind; `leave` clears the timer on every
path (even a rejecting SDK leave, since the timer is stopped before the
await). -/
theorem C2_unpublish_leave_stop_timer (s : RTCState) (h : Reachable s) :
    (∀ (sdkOk : Bool) (u : Unit) (s' : RTCState),
      unpublish s sdkOk = (Except.ok u, s') →
      s'.volumeIntervalRef = none ∧
        ∀ remote, timerFire s' remote = []) ∧
    (∀ sdkLeave : Option Nat,
      (leave s sdkLeave).2.1.volumeIntervalRef = none ∧
        ∀ remote, timerFire (leave s sdkLeave).2.1 remote = []) := by
  have hinv := timerInv_reachable s h
  have hnoclient : s.client = none → s.volumeIntervalRef = none := by
    intro hcn
    cases hr : s.volumeIntervalRef with
    | none => rfl
    | some r =>
        exfalso
        have h1 := (hinv (by rw [hr]; rfl)).1
        rw [hcn] at h1
        exact Bool.noConfusion h1
  have hnotrack : s.localAudioTrack = none → s.volumeIntervalRef = none := by
    intro htn
    cases hr : s.volumeIntervalRef with
    | none => rfl
    | some r =>
        exfalso
        have h2 := (hinv (by rw [hr]; rfl)).2
        rw [htn] at h2
        exact Bool.noConfusion h2
  constructor
  · intro sdkOk u s' heq
    unfold unpublish at heq
    cases hc : s.client with
    | none =>
        rw [hc] at heq
        have hs' : s = s' := congrArg Prod.snd heq
        subst hs'
        have hr := hnoclient hc
        exact ⟨hr, timerFire_of_none s hr⟩
    | some u0 =>
        cases ht : s.localAudioTrack with
        | none =>
            rw [hc, ht] at heq
            have hs' : s = s' := congrArg Prod.snd heq
            subst hs'
            have hr := hnotrack ht
            exact ⟨hr, timerFire_of_none s hr⟩
        | some t =>
            rw [hc, ht] at heq
            cases sdkOk with
            | true =>
                have hs' : stopVolumeMonitoring s = s' :=
                  congrArg Prod.snd heq
                subst hs'
                exact ⟨stopVolumeMonitoring_ref s,
                  timerFire_of_none _ (stopVolumeMonitoring_ref s)⟩
            | false =>
                exfalso
                have hfst : (Except.error (RTCError.sdk 0) :
                    Except RTCError Unit) = Except.ok u :=
                  congrArg Prod.fst heq
                exact Except.noConfusion hfst
  · intro sdkLeave
    cases hc : s.client with
    | none =>
        rw [leave_of_no_client s sdkLeave hc]
        have hr := hnoclient hc
        exact ⟨hr, timerFire_of_none s hr⟩
    | some u =>
        have hr := leave_ref_of_client s sdkLeave u hc
        exact ⟨hr, timerFire_of_none _ hr⟩

theorem C2_unpublish_leave_stop_timer_witness :
    (leave ([Op.init "app" "ch" none 1 none none,
        Op.createAudioTrack (Except.ok 0),
        Op.publish true].foldl applyOp initialState) none).2.1.volumeIntervalRef =
      none ∧
    (unpublish ([Op.init "app" "ch" none 1 none none,
        Op.createAudioTrack (Except.ok 0),
        Op.publish true].foldl applyOp initialState) true).2.volumeIntervalRef =
      none := by
  have h := C2_unpublish_leave_stop_timer
    ([Op.init "app" "ch" none 1 none none, Op.createAudioTrack (Except.ok 0),
      Op.publish true].foldl applyOp initialState)
    ⟨[Op.init "app" "ch" none 1 none none, Op.createAudioTrack (Except.ok 0),
      Op.publish true], rfl⟩
  refine ⟨(h.2 none).1, ?_⟩
  exact (h.1 true ()
    (unpublish ([Op.init "app" "ch" none 1 none none,
      Op.createAudioTrack (Except.ok 0),
      Op.publish true].foldl applyOp initialState) true).2 rfl).1
